import Mathlib

/-
Formal model of the `udom` RL preference-learning core, translated from the
Python sources:
  - `src/rl/core/environment/environment.py` and `types.py` (DesignEnvironment)
  - `src/rl/core/platform_keyword_classifier.py` (PlatformKeywordClassifier)
  - `src/rl/core/synthetic_preference_generator.py` (SyntheticPreferenceGenerator)
  - `src/rl/utils/validators/schema_validator.py` (SchemaValidator.validate_rule)

Modelling conventions: Python floats become `ℚ`; `Optional[T]` becomes
`Option T`; dicts read through fixed keys become structures of `Option`
fields; dicts used as ordered maps become association lists (Python dicts
preserve insertion order); functions that raise become `Except`-valued.
Python truthiness of strings, lists and dicts is modelled by explicit
`...Truthy` helpers.  String helpers (`lower`, substring test, `split`) are
re-implemented by structural recursion over the character list so that all
definitions evaluate on concrete inputs.
-/

namespace Udom

/-! ### String helpers (structural re-implementations of the Python built-ins) -/

/-- `needle` occurs at the head of `hay` (used for the substring test). -/
def headMatches : List Char → List Char → Bool
  | [], _ => true
  | _ :: _, [] => false
  | c :: cs, d :: ds => c == d && headMatches cs ds

/-- Python `needle in hay` on strings: `needle` occurs contiguously in `hay`. -/
def hasSub (hay needle : List Char) : Bool :=
  match hay with
  | [] => needle.isEmpty
  | _ :: tl => headMatches needle hay || hasSub tl needle

/-- Python `needle in hay` lifted to `String`. -/
def strContains (hay needle : String) : Bool :=
  hasSub hay.toList needle.toList

/-- Python `str.lower()` (ASCII case only, which is all the sources use). -/
def pyLower (s : String) : String :=
  String.mk (s.toList.map Char.toLower)

/-- Helper for `pySplit`: split on whitespace runs, dropping empty tokens. -/
def pySplitAux : List Char → List Char → List String
  | [], cur => if cur.isEmpty then [] else [String.mk cur.reverse]
  | c :: cs, cur =>
    if c.isWhitespace then
      if cur.isEmpty then pySplitAux cs [] else String.mk cur.reverse :: pySplitAux cs []
    else pySplitAux cs (c :: cur)

/-- Python `str.split()` with no argument: split on whitespace runs. -/
def pySplit (s : String) : List String :=
  pySplitAux s.toList []

/-- Helper for `splitOnColon`. -/
def splitOnColonAux : List Char → List Char → List String
  | [], cur => [String.mk cur.reverse]
  | c :: cs, cur =>
    if c == ':' then String.mk cur.reverse :: splitOnColonAux cs []
    else splitOnColonAux cs (c :: cur)

/-- Python `str.split(':')` (used on group keys). -/
def splitOnColon (s : String) : List String :=
  splitOnColonAux s.toList []

/-- A regex `\w` character: alphanumeric or underscore. -/
def isWordChar (c : Char) : Bool := c.isAlphanum || c == '_'

/-- Helper for `descWords`: maximal runs of word characters. -/
def wordRunsAux : List Char → List Char → List String
  | [], cur => if cur.isEmpty then [] else [String.mk cur.reverse]
  | c :: cs, cur =>
    if isWordChar c then wordRunsAux cs (c :: cur)
    else if cur.isEmpty then wordRunsAux cs [] else String.mk cur.reverse :: wordRunsAux cs []

/-- Python `set(re.findall(r'\b\w{3,}\b', s))`: the distinct maximal word-character
runs of length at least 3. -/
def descWords (s : String) : List String :=
  ((wordRunsAux s.toList []).filter (fun w => 3 ≤ w.length)).dedup

/-- Python truthiness of an optional string (`None` and `""` are falsy). -/
def optStrTruthy : Option String → Bool
  | none => false
  | some s => !s.isEmpty

/-- Python truthiness of an optional list (`None` and `[]` are falsy). -/
def optListTruthy {α : Type} : Option (List α) → Bool
  | none => false
  | some l => !l.isEmpty

/-! ### Environment types (`src/rl/core/environment/types.py`) -/

/-- `ActionType` enum. -/
inductive ActionType where
  | suggest_rule
  | suggest_multiple
  | no_suggestion
deriving DecidableEq

/-- `ActionType.value`. -/
def ActionType.value : ActionType → String
  | .suggest_rule => "suggest_rule"
  | .suggest_multiple => "suggest_multiple"
  | .no_suggestion => "no_suggestion"

/-- `UserResponse` enum. -/
inductive UserResponse where
  | accepted
  | rejected
  | modified
  | ignored
deriving DecidableEq

/-- `UserResponse.value`. -/
def UserResponse.value : UserResponse → String
  | .accepted => "accepted"
  | .rejected => "rejected"
  | .modified => "modified"
  | .ignored => "ignored"

/-- One entry of the `changes` list handed to `step` / `_compute_reward`;
only `change_scope` is read by the code (via `c.get('change_scope')`). -/
structure ChangeRecord where
  change_type : Option String := none
  change_scope : Option String := none
  property_name : Option String := none
deriving DecidableEq

/-- `Observation` dataclass (snapshot payloads kept as opaque key-value data). -/
structure Observation where
  snapshot_id : String
  artifact_id : String
  snapshot : List (String × String) := []
  previous_snapshot : Option (List (String × String)) := none
  user_intent : Option String := none
  component_id : Option String := none
  component_type : Option String := none
  platform : Option String := none
deriving DecidableEq

/-- `Action` dataclass: suggested rules are dicts in the source; modelled as
opaque key-value data (only their number is read by the environment). -/
structure Action where
  action_type : ActionType
  suggested_rules : List (List (String × String))
  confidence_scores : List ℚ := []
  reasoning : Option String := none
deriving DecidableEq

/-- The metadata dict built by `_compute_reward`. -/
structure RewardMetadata where
  user_response : String
  num_suggestions : ℕ
  num_changes : ℕ
  duration_ms : Option ℚ
deriving DecidableEq

/-- `Reward` dataclass: `components` is an insertion-ordered dict. -/
structure Reward where
  value : ℚ
  source : String
  components : List (String × ℚ) := []
  metadata : RewardMetadata
deriving DecidableEq

/-- The info dict built by `step`. -/
structure StepInfo where
  episode_step : ℕ
  total_reward : ℚ
  action_type : String
  user_response : String
  num_changes : ℕ
deriving DecidableEq

/-- `StepResult` dataclass. -/
structure StepResult where
  observation : Observation
  reward : Reward
  done : Bool
  info : StepInfo
deriving DecidableEq

/-! ### `DesignEnvironment` (`src/rl/core/environment/environment.py`) -/

/-- The `DesignEnvironment` object: configured weights plus mutable episode state. -/
structure DesignEnvironment where
  preference_weight : ℚ := 1
  change_weight : ℚ := 1/2
  temporal_weight : ℚ := 1/5
  max_suggestions : ℕ := 5
  current_observation : Option Observation := none
  last_action : Option Action := none
  last_user_response : Option UserResponse := none
  last_changes : Option (List ChangeRecord) := none
  episode_step : ℕ := 0
  episode_rewards : List ℚ := []
deriving DecidableEq

/-- `DesignEnvironment.__init__`: a fresh environment with the given weights. -/
def DesignEnvironment.init (preference_weight change_weight temporal_weight : ℚ)
    (max_suggestions : ℕ) : DesignEnvironment :=
  { preference_weight := preference_weight
    change_weight := change_weight
    temporal_weight := temporal_weight
    max_suggestions := max_suggestions }

/-- `DesignEnvironment.reset`: clears episode state and installs the observation;
returns the (new) current observation together with the updated environment. -/
def DesignEnvironment.reset (env : DesignEnvironment) (observation : Observation) :
    Observation × DesignEnvironment :=
  (observation,
   { env with
      current_observation := some observation
      last_action := none
      last_user_response := none
      last_changes := none
      episode_step := 0
      episode_rewards := [] })

/-- Python truthiness of the `changes` argument (`if changes:`). -/
def changesTruthy : Option (List ChangeRecord) → Bool
  | some (_ :: _) => true
  | _ => false

/-- The `temporal_reward` computation inside `_compute_reward` (before the
`temporal_weight` factor). -/
def temporal_reward : Option ℚ → ℚ
  | none => 0
  | some d =>
    if 1000 ≤ d ∧ d ≤ 5000 then 1 - (d - 1000) / 4000
    else if d < 1000 then 1/2
    else max 0 (1 - (d - 5000) / 10000)

/-- `DesignEnvironment._compute_reward`. -/
def DesignEnvironment.compute_reward (env : DesignEnvironment) (action : Action)
    (user_response : UserResponse) (changes : Option (List ChangeRecord))
    (duration_ms : Option ℚ) : Reward :=
  let preference_reward : ℚ :=
    match user_response with
    | .accepted => 1
    | .rejected => -1
    | .modified => 1/2
    | .ignored => 0
  let change_reward : ℚ :=
    if changesTruthy changes then
      let cs := changes.getD []
      let num_changes : ℕ := cs.length
      let base : ℚ := min ((num_changes : ℚ) / 10) 1
      let property_changes : ℕ :=
        (cs.filter (fun c => c.change_scope == some "property")).length
      if 0 < property_changes then base + (2/10) * min ((property_changes : ℚ) / 5) 1
      else base
    else 0
  let components : List (String × ℚ) :=
    [("preference", preference_reward * env.preference_weight),
     ("change_magnitude", change_reward * env.change_weight),
     ("temporal", temporal_reward duration_ms * env.temporal_weight)]
  let total_reward : ℚ := (components.map Prod.snd).sum
  { value := total_reward
    source := "composite"
    components := components
    metadata :=
      { user_response := user_response.value
        num_suggestions := action.suggested_rules.length
        num_changes := (changes.getD []).length
        duration_ms := duration_ms } }

/-- `DesignEnvironment.step`: fails before `reset`; otherwise advances the episode. -/
def DesignEnvironment.step (env : DesignEnvironment) (action : Action)
    (user_response : UserResponse) (changes : Option (List ChangeRecord) := none)
    (duration_ms : Option ℚ := none) (next_observation : Option Observation := none) :
    Except String (StepResult × DesignEnvironment) :=
  match env.current_observation with
  | none => Except.error "Environment not reset. Call reset() first."
  | some obs =>
    let env1 := { env with
      last_action := some action
      last_user_response := some user_response
      last_changes := changes
      episode_step := env.episode_step + 1 }
    let reward := env1.compute_reward action user_response changes duration_ms
    let env2 := { env1 with episode_rewards := env1.episode_rewards ++ [reward.value] }
    let env3 :=
      match next_observation with
      | some o => { env2 with current_observation := some o }
      | none => env2
    let done : Bool := user_response == UserResponse.accepted || Nat.ble 10 env3.episode_step
    let info : StepInfo :=
      { episode_step := env3.episode_step
        total_reward := env3.episode_rewards.sum
        action_type := action.action_type.value
        user_response := user_response.value
        num_changes := (changes.getD []).length }
    Except.ok
      ({ observation := (env3.current_observation).getD obs
         reward := reward
         done := done
         info := info }, env3)

/-! ### Reward-model lemmas -/

/-- Unfolding lemma: the temporal reward inside the 1000..5000 ms window. -/
lemma temporal_reward_in_window {d : ℚ} (h1 : 1000 ≤ d) (h2 : d ≤ 5000) :
    temporal_reward (some d) = 1 - (d - 1000) / 4000 := by
  simp only [temporal_reward]
  rw [if_pos ⟨h1, h2⟩]

/-- Unfolding lemma: the temporal reward below 1000 ms. -/
lemma temporal_reward_fast {d : ℚ} (h : d < 1000) :
    temporal_reward (some d) = 1/2 := by
  simp only [temporal_reward]
  rw [if_neg (by rintro ⟨h1, _⟩; linarith), if_pos h]

/-- Unfolding lemma: the temporal reward above 5000 ms. -/
lemma temporal_reward_slow {d : ℚ} (h : 5000 < d) :
    temporal_reward (some d) = max 0 (1 - (d - 5000) / 10000) := by
  simp only [temporal_reward]
  rw [if_neg (by rintro ⟨_, h2⟩; linarith), if_neg (by linarith)]

/-- C1: for every reward computed by `_compute_reward` (any user response, changes
list, duration and configured weights), the components map has exactly the keys
`preference`, `change_magnitude`, `temporal`, and `value` equals the sum of the
component values, unclamped. -/
theorem reward_value_is_sum_of_components (env : DesignEnvironment) (action : Action)
    (user_response : UserResponse) (changes : Option (List ChangeRecord))
    (duration_ms : Option ℚ) :
    (env.compute_reward action user_response changes duration_ms).components.map Prod.fst
        = ["preference", "change_magnitude", "temporal"] ∧
    (env.compute_reward action user_response changes duration_ms).value
        = ((env.compute_reward action user_response changes duration_ms).components.map
            Prod.snd).sum := by
  constructor <;> simp [DesignEnvironment.compute_reward]

/-- C2: the unweighted temporal component is 0 for an unknown duration,
`1 − (d−1000)/4000` on the window [1000,5000] (hence monotonically non-increasing
there, 1.0 at 1000 ms and 0.0 at 5000 ms), flat 0.5 below 1000 ms, and
`max 0 (1 − (d−5000)/10000)` above 5000 ms; the `temporal` component of the
reward is the unweighted value multiplied by `temporal_weight`. -/
theorem temporal_component_formula :
    temporal_reward none = 0 ∧
    (∀ d : ℚ, 1000 ≤ d → d ≤ 5000 → temporal_reward (some d) = 1 - (d - 1000) / 4000) ∧
    (∀ d : ℚ, d < 1000 → temporal_reward (some d) = 1/2) ∧
    (∀ d : ℚ, 5000 < d → temporal_reward (some d) = max 0 (1 - (d - 5000) / 10000)) ∧
    (∀ d₁ d₂ : ℚ, 1000 ≤ d₁ → d₁ ≤ d₂ → d₂ ≤ 5000 →
        temporal_reward (some d₂) ≤ temporal_reward (some d₁)) ∧
    temporal_reward (some 1000) = 1 ∧
    temporal_reward (some 5000) = 0 ∧
    (∀ (env : DesignEnvironment) (a : Action) (ur : UserResponse)
        (ch : Option (List ChangeRecord)) (d : Option ℚ),
        (env.compute_reward a ur ch d).components.lookup "temporal"
          = some (temporal_reward d * env.temporal_weight)) := by
  refine ⟨rfl, fun d h1 h2 => temporal_reward_in_window h1 h2,
    fun d h => temporal_reward_fast h, fun d h => temporal_reward_slow h,
    fun d₁ d₂ ha hb hc => ?_, ?_, ?_, fun env a ur ch d => ?_⟩
  · rw [temporal_reward_in_window (by linarith) hc,
        temporal_reward_in_window ha (by linarith)]
    linarith
  · rw [temporal_reward_in_window (by norm_num) (by norm_num)]; norm_num
  · rw [temporal_reward_in_window (by norm_num) (by norm_num)]; norm_num
  · simp [DesignEnvironment.compute_reward, List.lookup]

/-- C8: stepping an environment on which `reset` was never called fails with the
invalid-state error (no successor state is produced), while stepping immediately
after any `reset` succeeds. -/
theorem step_before_reset_errors :
    (∀ (pw cw tw : ℚ) (ms : ℕ) (a : Action) (ur : UserResponse)
        (ch : Option (List ChangeRecord)) (dm : Option ℚ) (no : Option Observation),
        (DesignEnvironment.init pw cw tw ms).step a ur ch dm no
          = Except.error "Environment not reset. Call reset() first.") ∧
    (∀ (env : DesignEnvironment) (obs : Observation) (a : Action) (ur : UserResponse)
        (ch : Option (List ChangeRecord)) (dm : Option ℚ) (no : Option Observation),
        ((env.reset obs).2.step a ur ch dm no).isOk = true) := by
  constructor
  · intro pw cw tw ms a ur ch dm no
    rfl
  · intro env obs a ur ch dm no
    simp [DesignEnvironment.reset, DesignEnvironment.step, Except.isOk, Except.toBool]


/-! ### `PlatformKeywordClassifier` (`src/rl/core/platform_keyword_classifier.py`) -/

/-- `ClassificationResult` dataclass. -/
structure ClassificationResult where
  dimension : String
  confidence : ℚ
  method : String
  matched_keywords : List String
  platform : Option String := none
deriving DecidableEq

/-- `BASE_DESIGN_DIMENSIONS`, in source (insertion) order. -/
def BASE_DESIGN_DIMENSIONS : List (String × List String) :=
  [("layout", ["layout", "grid", "alignment", "position", "arrangement", "structure", "composition"]),
   ("interaction", ["interaction", "flow", "navigation", "click", "hover", "transition", "state", "behavior"]),
   ("content", ["content", "text", "copy", "message", "information", "data", "label"]),
   ("visual_hierarchy", ["hierarchy", "emphasis", "prominence", "importance", "level", "rank"]),
   ("spacing", ["spacing", "margin", "padding", "gap", "rhythm", "whitespace", "distance"]),
   ("typography", ["typography", "font", "type", "text style", "letter", "line height", "kerning"]),
   ("color", ["color", "palette", "hue", "saturation", "contrast", "tone", "shade"]),
   ("visual_elements", ["shadow", "border", "radius", "gradient", "effect", "filter", "opacity"])]

/-- `SCOPE_MAPPING`. -/
def SCOPE_MAPPING : List (String × String) :=
  [("structural", "layout"),
   ("relational", "interaction"),
   ("compositional", "layout"),
   ("artifact_property", "visual_elements")]

/-- The classifier's mutable state: nested insertion-ordered maps
`platform → dimension → keyword → reward` and
`platform → dimension → keyword → (correct, total)`. -/
structure ClassifierState where
  platform_keywords : List (String × List (String × List (String × ℚ))) := []
  keyword_performance : List (String × List (String × List (String × (ℕ × ℕ)))) := []

/-- Update key `k` of an association list through `f`, starting from default `d`
if the key is absent (Python `defaultdict` access followed by mutation); a fresh
key is appended, matching dict insertion order. -/
def alUpdate {α : Type} (l : List (String × α)) (k : String) (d : α) (f : α → α) :
    List (String × α) :=
  match l with
  | [] => [(k, f d)]
  | (k', v) :: rest => if k' = k then (k', f v) :: rest else (k', v) :: alUpdate rest k d f

/-- Display form of a reward score (stands in for Python's `f"{reward:.2f}"`). -/
def ratStr (q : ℚ) : String := toString q.num ++ "/" ++ toString q.den

/-- `PlatformKeywordClassifier._track_performance`: bump the `(correct, total)`
counters of every description word under `(platform, predicted_dimension)`. -/
def track_performance (s : ClassifierState) (description_words : List String)
    (predicted_dimension ground_truth_dimension : String) (platform : Option String) :
    ClassifierState :=
  if !optStrTruthy platform then s
  else
    let pl := platform.getD ""
    let is_correct := predicted_dimension == ground_truth_dimension
    description_words.foldl
      (fun st word =>
        { st with
            keyword_performance :=
              alUpdate st.keyword_performance pl []
                (fun dims =>
                  alUpdate dims predicted_dimension []
                    (fun kws =>
                      alUpdate kws word (0, 0)
                        (fun p => (p.1 + (if is_correct then 1 else 0), p.2 + 1)))) })
      s

/-- Python `max(items, key=value)` over an insertion-ordered score dict:
the first entry with the maximal score. -/
def firstMaxBy : List (String × ℚ) → String × ℚ
  | [] => ("", 0)
  | x :: xs => xs.foldl (fun best y => if best.2 < y.2 then y else best) x

/-- `PlatformKeywordClassifier.classify_dimension`, threading the classifier
state explicitly (the result and the state after the call). -/
def classify_dimension (s : ClassifierState) (description : String)
    (scope : Option String := none) (explicit_dimension : Option String := none)
    (platform : Option String := none) : ClassificationResult × ClassifierState :=
  if optStrTruthy explicit_dimension then
    ({ dimension := explicit_dimension.getD "", confidence := 1, method := "explicit",
       matched_keywords := [], platform := platform }, s)
  else
    let description_lower := pyLower description
    let description_words := descWords description_lower
    let scored := BASE_DESIGN_DIMENSIONS.map (fun bd =>
      let base_hits := bd.2.filter (fun kw => strContains description_lower kw)
      let learned : List (String × ℚ) :=
        if optStrTruthy platform then
          match s.platform_keywords.lookup (platform.getD "") with
          | none => []
          | some dims => (dims.lookup bd.1).getD []
        else []
      let learned_hits := learned.filter (fun kr => strContains description_lower kr.1)
      let score : ℚ := (base_hits.length : ℚ) + (learned_hits.map Prod.snd).sum
      let matched := base_hits ++ learned_hits.map (fun kr => kr.1 ++ "(" ++ ratStr kr.2 ++ ")")
      (bd.1, score, matched))
    let positives := scored.filter (fun x => 0 < x.2.1)
    let dimension_scores := positives.map (fun x => (x.1, x.2.1))
    let matched_keywords_by_dim := positives.map (fun x => (x.1, x.2.2))
    if dimension_scores.isEmpty && optStrTruthy scope then
      ({ dimension := (SCOPE_MAPPING.lookup (scope.getD "")).getD "general",
         confidence := 1/2, method := "scope", matched_keywords := [], platform := platform }, s)
    else if !dimension_scores.isEmpty then
      let best := firstMaxBy dimension_scores
      let confidence := min 1 (best.2 / 3)
      let s1 :=
        if optStrTruthy explicit_dimension then
          track_performance s description_words best.1 (explicit_dimension.getD "") platform
        else s
      ({ dimension := best.1, confidence := confidence, method := "keywords",
         matched_keywords := (matched_keywords_by_dim.lookup best.1).getD [],
         platform := platform }, s1)
    else
      ({ dimension := "general", confidence := 3/10, method := "fallback",
         matched_keywords := [], platform := platform }, s)

/-- Shared lemma: `classify_dimension` returns its input state unchanged: the
internal performance-tracking call is dead code, being guarded by a condition
that is false on every path that reaches it. -/
lemma classify_dimension_state_eq (s : ClassifierState) (description : String)
    (scope explicit_dimension platform : Option String) :
    (classify_dimension s description scope explicit_dimension platform).2 = s := by
  by_cases h : optStrTruthy explicit_dimension = true
  · simp [classify_dimension, h]
  · simp only [Bool.not_eq_true] at h
    simp only [classify_dimension, h, Bool.false_eq_true, if_false]
    repeat' split
    all_goals rfl

/-- C10: `classify_dimension` never mutates classifier state — for every input,
the `platform_keywords` and `keyword_performance` maps after the call are the
ones before it; in particular the performance-tracking branch (guarded by
`explicit_dimension`, which already short-circuited) never runs, so
classification never accumulates the correct/total counters. -/
theorem classify_dimension_never_mutates_state (s : ClassifierState) (description : String)
    (scope explicit_dimension platform : Option String) :
    (classify_dimension s description scope explicit_dimension platform).2.platform_keywords
        = s.platform_keywords ∧
    (classify_dimension s description scope explicit_dimension platform).2.keyword_performance
        = s.keyword_performance := by
  rw [classify_dimension_state_eq]
  exact ⟨rfl, rfl⟩


/-! ### Generator data model (`src/rl/core/synthetic_preference_generator.py`) -/

/-- Trace context dicts are passed through opaquely; modelled as key-value data. -/
abbrev TraceContext := List (String × String)

/-- The `platform_context` dict of a rule: the keys the code reads, plus a list
of any further keys present (which only affect the dict's truthiness). -/
structure PlatformContext where
  platform : Option String := none
  version : Option String := none
  extraction_method : Option String := none
  api_endpoints : Option (List String) := none
  data_source : Option String := none
  other_keys : List String := []
deriving DecidableEq

/-- Python truthiness of a `platform_context` dict: non-empty. -/
def pcNonempty (pc : PlatformContext) : Bool :=
  pc.platform.isSome || pc.version.isSome || pc.extraction_method.isSome ||
    pc.api_endpoints.isSome || pc.data_source.isSome || !pc.other_keys.isEmpty

/-- Python truthiness of `rule.platform_context` (`None` and `{}` are falsy). -/
def optPCTruthy : Option PlatformContext → Bool
  | none => false
  | some pc => pcNonempty pc

/-- The `training_metadata` dict of a rule: the keys the code reads, plus a list
of any further keys present. -/
structure TrainingMetadata where
  novelty_score : Option ℚ := none
  pattern_frequency : Option String := none
  suitable_for_training : Option Bool := none
  constitutional_signals : Option (List String) := none
  iteration_detected : Option Bool := none
  other_keys : List String := []
deriving DecidableEq

/-- Python truthiness of a `training_metadata` dict: non-empty. -/
def tmNonempty (tm : TrainingMetadata) : Bool :=
  tm.novelty_score.isSome || tm.pattern_frequency.isSome || tm.suitable_for_training.isSome ||
    tm.constitutional_signals.isSome || tm.iteration_detected.isSome || !tm.other_keys.isEmpty

/-- Python truthiness of `rule.training_metadata` (`None` and `{}` are falsy). -/
def optTMTruthy : Option TrainingMetadata → Bool
  | none => false
  | some tm => tmNonempty tm

/-- `IntentRule` dataclass (defaults as in the source). -/
structure IntentRule where
  rule_id : String
  description : String
  scope : String
  abstraction_level : String
  triggering_actions : List String
  artifact_properties : Option (List String) := none
  confidence : ℚ := 1/2
  platform_context : Option PlatformContext := none
  training_metadata : Option TrainingMetadata := none
  design_dimension : Option String := none
deriving DecidableEq

/-- `PreferencePair` dataclass (defaults as in the source). -/
structure PreferencePair where
  preferred : IntentRule
  rejected : IntentRule
  source : String
  synthetic : Bool := true
  weight : ℚ := 1
  trace_context : Option TraceContext := none
  dimension_group : Option String := none
  platform_group : Option String := none
  artifact_group : Option String := none
deriving DecidableEq

/-- The configuration given to `SyntheticPreferenceGenerator.__init__`
(defaults as in the source). -/
structure GeneratorConfig where
  confidence_threshold_high : ℚ := 7/10
  confidence_threshold_low : ℚ := 4/10
  min_novelty_score : ℚ := 3/10
  require_platform_context : Bool := true
  synthetic_weight : ℚ := 3/10
  group_by_dimension : Bool := true
  group_by_platform : Bool := true
  group_by_artifact : Bool := true
deriving DecidableEq

/-! ### Generator operations -/

/-- `SyntheticPreferenceGenerator._classify_platform`. -/
def classify_platform (rule : IntentRule) : String :=
  match rule.platform_context with
  | some pc =>
    if pcNonempty pc && optStrTruthy pc.platform then pyLower (pc.platform.getD "")
    else "unknown"
  | none => "unknown"

/-- `SyntheticPreferenceGenerator._classify_artifact_type`. -/
def classify_artifact_type (rule : IntentRule) : String :=
  let fromProps : Option String :=
    if optListTruthy rule.artifact_properties then
      let props_lower := (rule.artifact_properties.getD []).map pyLower
      if props_lower.any (fun p => strContains p "text" || strContains p "font") then some "text"
      else if props_lower.any (fun p => strContains p "vector" || strContains p "path") then some "vector"
      else if props_lower.any (fun p => strContains p "frame" || strContains p "container") then some "frame"
      else if props_lower.any (fun p => strContains p "component") then some "component"
      else none
    else none
  match fromProps with
  | some a => a
  | none =>
    let desc_lower := pyLower rule.description
    if strContains desc_lower "text" || strContains desc_lower "typography" then "text"
    else if strContains desc_lower "vector" || strContains desc_lower "shape" then "vector"
    else if strContains desc_lower "frame" || strContains desc_lower "container" then "frame"
    else if strContains desc_lower "component" then "component"
    else "general"

/-- `SyntheticPreferenceGenerator._classify_design_dimension`:
classify via the shared classifier, threading its state. -/
def classify_design_dimension (s : ClassifierState) (rule : IntentRule) :
    String × ClassifierState :=
  let platform := classify_platform rule
  let rs := classify_dimension s rule.description (some rule.scope) rule.design_dimension
    (if platform == "unknown" then none else some platform)
  (rs.1.dimension, rs.2)

/-- The group key built in `_classify_rules` from the enabled grouping options. -/
def group_key_of (cfg : GeneratorConfig) (dimension platform artifact : String) : String :=
  if cfg.group_by_dimension && cfg.group_by_platform && cfg.group_by_artifact then
    dimension ++ ":" ++ platform ++ ":" ++ artifact
  else if cfg.group_by_dimension && cfg.group_by_platform then dimension ++ ":" ++ platform
  else if cfg.group_by_dimension && cfg.group_by_artifact then dimension ++ ":" ++ artifact
  else if cfg.group_by_platform && cfg.group_by_artifact then platform ++ ":" ++ artifact
  else if cfg.group_by_dimension then dimension
  else if cfg.group_by_platform then platform
  else if cfg.group_by_artifact then artifact
  else "all"

/-- Append a rule to its group (`defaultdict(list)` access plus `append`). -/
def insertGroup (groups : List (String × List IntentRule)) (key : String) (rule : IntentRule) :
    List (String × List IntentRule) :=
  alUpdate groups key [] (fun rs => rs ++ [rule])

/-- One iteration of the `_classify_rules` loop. -/
def classify_rules_step (cfg : GeneratorConfig)
    (acc : List (String × List IntentRule) × ClassifierState) (rule : IntentRule) :
    List (String × List IntentRule) × ClassifierState :=
  let ds := classify_design_dimension acc.2 rule
  let platform := classify_platform rule
  let artifact := classify_artifact_type rule
  (insertGroup acc.1 (group_key_of cfg ds.1 platform artifact) rule, ds.2)

/-- `SyntheticPreferenceGenerator._classify_rules`: partition the rules into
groups keyed by the enabled dimensions, threading classifier state. -/
def classify_rules (cfg : GeneratorConfig) (s : ClassifierState) (rules : List IntentRule) :
    List (String × List IntentRule) × ClassifierState :=
  rules.foldl (classify_rules_step cfg) ([], s)

/-- `SyntheticPreferenceGenerator._parse_group_key`. -/
def parse_group_key (group_key : Option String) :
    Option String × Option String × Option String :=
  if !optStrTruthy group_key || group_key == some "all" then (none, none, none)
  else
    let parts := splitOnColon (group_key.getD "")
    (parts[0]?, parts[1]?, parts[2]?)

/-- `SyntheticPreferenceGenerator._compute_quality_score`. -/
def compute_quality_score (cfg : GeneratorConfig) (rule : IntentRule) : ℚ :=
  let s1 : ℚ :=
    if !rule.rule_id.isEmpty && !rule.description.isEmpty && !rule.scope.isEmpty then 2/10 else 0
  let s2 : ℚ := s1 +
    (if rule.description.length ≤ 150 && (pySplit rule.description).length ≤ 20 then 2/10 else 0)
  let s3 : ℚ := s2 +
    (match rule.platform_context with
     | some pc =>
       if pcNonempty pc then
         (if optStrTruthy pc.platform && optStrTruthy pc.extraction_method then (2:ℚ)/10 else 0) +
           (if optListTruthy pc.api_endpoints then (1:ℚ)/10 else 0)
       else 0
     | none => 0)
  let s4 : ℚ := s3 +
    (match rule.training_metadata with
     | some tm =>
       if tmNonempty tm then
         (if tm.suitable_for_training.getD false then (2:ℚ)/10 else 0) +
           (if cfg.min_novelty_score ≤ tm.novelty_score.getD 0 then (1:ℚ)/10 else 0)
       else 0
     | none => 0)
  s4

/-- The iteration-signal keyword list of `_compute_constitutional_score`. -/
def iteration_keywords : List String :=
  ["iterative", "refine", "adjust", "return", "revisit",
   "again", "further", "continue", "polish", "tweak"]

/-- The semantic-depth keyword list of `_compute_constitutional_score`. -/
def semantic_keywords : List String :=
  ["for", "to improve", "to enhance", "for readability", "for hierarchy",
   "alignment", "consistency", "balance", "emphasis", "clarity"]

/-- `SyntheticPreferenceGenerator._compute_constitutional_score`. -/
def compute_constitutional_score (rule : IntentRule) : ℚ :=
  let desc_lower := pyLower rule.description
  let s1 : ℚ := if iteration_keywords.any (fun kw => strContains desc_lower kw) then 25/100 else 0
  let s2 : ℚ := s1 +
    (if semantic_keywords.any (fun kw => strContains desc_lower kw) then 25/100 else 0)
  let s3 : ℚ := s2 +
    (match rule.platform_context with
     | some pc =>
       if pcNonempty pc then
         (if optStrTruthy pc.platform && optStrTruthy pc.extraction_method then (15:ℚ)/100 else 0) +
           (if optListTruthy pc.api_endpoints || optStrTruthy pc.data_source then (1:ℚ)/10 else 0)
       else 0
     | none => 0)
  let s4 : ℚ := s3 +
    (match rule.training_metadata with
     | some tm =>
       if tmNonempty tm then
         (let signals := tm.constitutional_signals.getD []
          (if !signals.isEmpty then (15:ℚ)/100 * (min signals.length 2 : ℕ) else 0) +
            (if tm.iteration_detected.getD false then (15:ℚ)/100 else 0))
       else 0
     | none => 0)
  min 1 s4

/-- `SyntheticPreferenceGenerator._is_complete`. -/
def is_complete (rule : IntentRule) : Bool :=
  match rule.platform_context with
  | none => false
  | some pc =>
    pcNonempty pc && (pc.platform.isSome && pc.extraction_method.isSome)

/-- Novelty value read by the novelty strategy (`get('novelty_score', 0.5)`). -/
def rule_novelty (rule : IntentRule) : ℚ :=
  match rule.training_metadata with
  | some tm => tm.novelty_score.getD (1/2)
  | none => 1/2

/-- Frequency tag read by the frequency strategy (`get('pattern_frequency', 'uncommon')`). -/
def rule_frequency (rule : IntentRule) : String :=
  match rule.training_metadata with
  | some tm => tm.pattern_frequency.getD "uncommon"
  | none => "uncommon"

/-- The pairwise emission loop shared by all six strategies: every preferred ×
rejected combination with distinct rule ids, tagged with the strategy source,
weight, trace context and parsed group labels. -/
def make_pairs (preferred_rules rejected_rules : List IntentRule) (source : String)
    (weight : ℚ) (trace_context : Option TraceContext) (group_key : Option String) :
    List PreferencePair :=
  let g := parse_group_key group_key
  preferred_rules.flatMap (fun preferred =>
    (rejected_rules.filter (fun rejected => !(preferred.rule_id == rejected.rule_id))).map
      (fun rejected =>
        { preferred := preferred, rejected := rejected, source := source, synthetic := true,
          weight := weight, trace_context := trace_context,
          dimension_group := g.1, platform_group := g.2.1, artifact_group := g.2.2 }))

/-- `SyntheticPreferenceGenerator._generate_confidence_pairs`. -/
def generate_confidence_pairs (cfg : GeneratorConfig) (rules : List IntentRule)
    (trace_context : Option TraceContext) (group_key : Option String) : List PreferencePair :=
  make_pairs
    (rules.filter (fun r => decide (cfg.confidence_threshold_high ≤ r.confidence)))
    (rules.filter (fun r => decide (r.confidence ≤ cfg.confidence_threshold_low)))
    "confidence" cfg.synthetic_weight trace_context group_key

/-- `SyntheticPreferenceGenerator._generate_quality_pairs`. -/
def generate_quality_pairs (cfg : GeneratorConfig) (rules : List IntentRule)
    (trace_context : Option TraceContext) (group_key : Option String) : List PreferencePair :=
  make_pairs
    (rules.filter (fun r => decide ((8:ℚ)/10 ≤ compute_quality_score cfg r)))
    (rules.filter (fun r => decide (compute_quality_score cfg r ≤ (5:ℚ)/10)))
    "quality" cfg.synthetic_weight trace_context group_key

/-- `SyntheticPreferenceGenerator._generate_completeness_pairs`. -/
def generate_completeness_pairs (cfg : GeneratorConfig) (rules : List IntentRule)
    (trace_context : Option TraceContext) (group_key : Option String) : List PreferencePair :=
  make_pairs
    (rules.filter (fun r => is_complete r))
    (rules.filter (fun r => !is_complete r))
    "completeness" cfg.synthetic_weight trace_context group_key

/-- `SyntheticPreferenceGenerator._generate_novelty_pairs`. -/
def generate_novelty_pairs (cfg : GeneratorConfig) (rules : List IntentRule)
    (trace_context : Option TraceContext) (group_key : Option String) : List PreferencePair :=
  make_pairs
    (rules.filter (fun r => optTMTruthy r.training_metadata && decide ((7:ℚ)/10 ≤ rule_novelty r)))
    (rules.filter (fun r => optTMTruthy r.training_metadata && decide (rule_novelty r ≤ (3:ℚ)/10)))
    "novelty" cfg.synthetic_weight trace_context group_key

/-- `SyntheticPreferenceGenerator._generate_frequency_pairs`. -/
def generate_frequency_pairs (cfg : GeneratorConfig) (rules : List IntentRule)
    (trace_context : Option TraceContext) (group_key : Option String) : List PreferencePair :=
  make_pairs
    (rules.filter (fun r => optTMTruthy r.training_metadata && rule_frequency r == "common"))
    (rules.filter (fun r => optTMTruthy r.training_metadata && rule_frequency r == "rare"))
    "frequency" cfg.synthetic_weight trace_context group_key

/-- `SyntheticPreferenceGenerator._generate_constitutional_pairs`
(weight boosted by the factor 1.2). -/
def generate_constitutional_pairs (cfg : GeneratorConfig) (rules : List IntentRule)
    (trace_context : Option TraceContext) (group_key : Option String) : List PreferencePair :=
  make_pairs
    (rules.filter (fun r => decide ((7:ℚ)/10 ≤ compute_constitutional_score r)))
    (rules.filter (fun r => decide (compute_constitutional_score r ≤ (4:ℚ)/10)))
    "constitutional" (cfg.synthetic_weight * (12/10)) trace_context group_key

/-- The ordered pair of rule ids used as the deduplication key. -/
def pairKey (p : PreferencePair) : String × String :=
  (p.preferred.rule_id, p.rejected.rule_id)

/-- The loop of `_deduplicate_pairs`: keep a pair when its key was not seen yet. -/
def dedupGo (seen : List (String × String)) : List PreferencePair → List PreferencePair
  | [] => []
  | p :: rest =>
    if pairKey p ∈ seen then dedupGo seen rest
    else p :: dedupGo (pairKey p :: seen) rest

/-- `SyntheticPreferenceGenerator._deduplicate_pairs`. -/
def deduplicate_pairs (pairs : List PreferencePair) : List PreferencePair :=
  dedupGo [] pairs

/-- The default strategy list of `generate_preferences`. -/
def default_strategies : List String :=
  ["confidence", "quality", "completeness", "novelty", "frequency", "constitutional"]

/-- The pair stream of `generate_preferences` before deduplication: for every
group with at least two rules, the concatenation of the requested strategies'
pairs in source order, threading classifier state. -/
def generate_all_pairs (cfg : GeneratorConfig) (s : ClassifierState) (rules : List IntentRule)
    (trace_context : Option TraceContext) (strategies : Option (List String)) :
    List PreferencePair × ClassifierState :=
  let strats := strategies.getD default_strategies
  let cr := classify_rules cfg s rules
  let all_pairs := cr.1.flatMap (fun g =>
    if g.2.length < 2 then []
    else
      (if strats.contains "confidence" then
        generate_confidence_pairs cfg g.2 trace_context (some g.1) else []) ++
      (if strats.contains "quality" then
        generate_quality_pairs cfg g.2 trace_context (some g.1) else []) ++
      (if strats.contains "completeness" then
        generate_completeness_pairs cfg g.2 trace_context (some g.1) else []) ++
      (if strats.contains "novelty" then
        generate_novelty_pairs cfg g.2 trace_context (some g.1) else []) ++
      (if strats.contains "frequency" then
        generate_frequency_pairs cfg g.2 trace_context (some g.1) else []) ++
      (if strats.contains "constitutional" then
        generate_constitutional_pairs cfg g.2 trace_context (some g.1) else []))
  (all_pairs, cr.2)

/-- `SyntheticPreferenceGenerator.generate_preferences`: all strategy pairs per
group, deduplicated; returns the pairs together with the classifier state. -/
def generate_preferences (cfg : GeneratorConfig) (s : ClassifierState) (rules : List IntentRule)
    (trace_context : Option TraceContext := none) (strategies : Option (List String) := none) :
    List PreferencePair × ClassifierState :=
  let ap := generate_all_pairs cfg s rules trace_context strategies
  (deduplicate_pairs ap.1, ap.2)


/-! ### Generator lemmas -/

/-- Membership in an if-guarded list implies membership in the list. -/
lemma mem_of_mem_ite_nil {α : Type} {c : Prop} [Decidable c] {l : List α} {x : α}
    (h : x ∈ if c then l else []) : x ∈ l := by
  split at h
  · exact h
  · simp at h

/-- Every pair emitted by the shared strategy loop has distinct rule ids and
carries the strategy's source tag, weight and `synthetic = true`. -/
lemma mem_make_pairs {p : PreferencePair} {P R : List IntentRule} {src : String} {w : ℚ}
    {tc : Option TraceContext} {gk : Option String}
    (h : p ∈ make_pairs P R src w tc gk) :
    p.preferred.rule_id ≠ p.rejected.rule_id ∧ p.source = src ∧ p.weight = w ∧
      p.synthetic = true := by
  simp only [make_pairs, List.mem_flatMap, List.mem_map, List.mem_filter] at h
  obtain ⟨a, _, b, ⟨_, hb⟩, rfl⟩ := h
  refine ⟨?_, rfl, rfl, rfl⟩
  simpa using hb

/-- Every pair in the pre-deduplication stream of `generate_preferences` has
distinct rule ids, `synthetic = true`, and weight `synthetic_weight` (boosted
by 1.2 exactly for the constitutional source). -/
lemma mem_generate_all_pairs {p : PreferencePair} {cfg : GeneratorConfig} {s : ClassifierState}
    {rules : List IntentRule} {tc : Option TraceContext} {strats : Option (List String)}
    (h : p ∈ (generate_all_pairs cfg s rules tc strats).1) :
    p.synthetic = true ∧ p.preferred.rule_id ≠ p.rejected.rule_id ∧
      ((p.source = "constitutional" ∧ p.weight = cfg.synthetic_weight * (12/10)) ∨
        (p.source ≠ "constitutional" ∧ p.weight = cfg.synthetic_weight)) := by
  simp only [generate_all_pairs, List.mem_flatMap] at h
  obtain ⟨g, -, hp⟩ := h
  rcases Decidable.em (g.2.length < 2) with h2 | h2
  · rw [if_pos h2] at hp
    simp at hp
  · rw [if_neg h2] at hp
    simp only [List.mem_append] at hp
    rcases hp with ((((h1 | h1) | h1) | h1) | h1) | h1
    · have hm := mem_of_mem_ite_nil h1
      simp only [generate_confidence_pairs] at hm
      obtain ⟨hne, hsrc, hw, hsyn⟩ := mem_make_pairs hm
      exact ⟨hsyn, hne, Or.inr ⟨by rw [hsrc]; decide, hw⟩⟩
    · have hm := mem_of_mem_ite_nil h1
      simp only [generate_quality_pairs] at hm
      obtain ⟨hne, hsrc, hw, hsyn⟩ := mem_make_pairs hm
      exact ⟨hsyn, hne, Or.inr ⟨by rw [hsrc]; decide, hw⟩⟩
    · have hm := mem_of_mem_ite_nil h1
      simp only [generate_completeness_pairs] at hm
      obtain ⟨hne, hsrc, hw, hsyn⟩ := mem_make_pairs hm
      exact ⟨hsyn, hne, Or.inr ⟨by rw [hsrc]; decide, hw⟩⟩
    · have hm := mem_of_mem_ite_nil h1
      simp only [generate_novelty_pairs] at hm
      obtain ⟨hne, hsrc, hw, hsyn⟩ := mem_make_pairs hm
      exact ⟨hsyn, hne, Or.inr ⟨by rw [hsrc]; decide, hw⟩⟩
    · have hm := mem_of_mem_ite_nil h1
      simp only [generate_frequency_pairs] at hm
      obtain ⟨hne, hsrc, hw, hsyn⟩ := mem_make_pairs hm
      exact ⟨hsyn, hne, Or.inr ⟨by rw [hsrc]; decide, hw⟩⟩
    · have hm := mem_of_mem_ite_nil h1
      simp only [generate_constitutional_pairs] at hm
      obtain ⟨hne, hsrc, hw, hsyn⟩ := mem_make_pairs hm
      exact ⟨hsyn, hne, Or.inl ⟨hsrc, hw⟩⟩

/-- Deduplication only drops pairs: members of the output were in the input. -/
lemma mem_of_mem_dedupGo {p : PreferencePair} :
    ∀ {l : List PreferencePair} {seen : List (String × String)}, p ∈ dedupGo seen l → p ∈ l := by
  intro l
  induction l with
  | nil => intro seen h; simp [dedupGo] at h
  | cons q rest ih =>
    intro seen h
    rw [dedupGo] at h
    split at h
    · exact List.mem_cons_of_mem _ (ih h)
    · rcases List.mem_cons.mp h with rfl | h2
      · exact List.mem_cons_self _ _
      · exact List.mem_cons_of_mem _ (ih h2)

/-- The deduplicated stream has pairwise-distinct keys, none of them in `seen`. -/
lemma dedupGo_keys : ∀ (l : List PreferencePair) (seen : List (String × String)),
    ((dedupGo seen l).map pairKey).Nodup ∧
      ∀ k ∈ (dedupGo seen l).map pairKey, k ∉ seen := by
  intro l
  induction l with
  | nil => intro seen; simp [dedupGo]
  | cons q rest ih =>
    intro seen
    rw [dedupGo]
    split
    · exact ih seen
    · rename_i hq
      constructor
      · simp only [List.map_cons, List.nodup_cons]
        refine ⟨fun hmem => ?_, (ih _).1⟩
        exact (ih (pairKey q :: seen)).2 _ hmem (List.mem_cons_self _ _)
      · intro k hk hks
        simp only [List.map_cons, List.mem_cons] at hk
        rcases hk with rfl | hk2
        · exact hq hks
        · exact (ih (pairKey q :: seen)).2 _ hk2 (List.mem_cons_of_mem _ hks)

/-- Characterization of deduplication: a pair survives exactly when its key is
not in `seen` and it is the first pair of the input with its key. -/
lemma mem_dedupGo_iff (p : PreferencePair) :
    ∀ (l : List PreferencePair) (seen : List (String × String)),
      p ∈ dedupGo seen l ↔
        pairKey p ∉ seen ∧
          l.find? (fun q => decide (pairKey q = pairKey p)) = some p := by
  intro l
  induction l with
  | nil => intro seen; simp [dedupGo]
  | cons q rest ih =>
    intro seen
    rw [dedupGo]
    by_cases hk : pairKey q = pairKey p
    · rw [List.find?_cons_of_pos _ (by simpa using hk)]
      by_cases hs : pairKey q ∈ seen
      · rw [if_pos hs, ih]
        constructor
        · rintro ⟨hns, -⟩
          exact absurd (hk ▸ hs) hns
        · rintro ⟨hns, -⟩
          exact absurd (hk ▸ hs) hns
      · rw [if_neg hs]
        constructor
        · intro hmem
          rcases List.mem_cons.mp hmem with rfl | hmem2
          · exact ⟨hk ▸ hs, rfl⟩
          · have h3 := (ih _).mp hmem2
            have hin : pairKey p ∈ pairKey q :: seen := by
              rw [← hk]; exact List.mem_cons_self _ _
            exact absurd hin h3.1
        · rintro ⟨hns, hq⟩
          have : q = p := by injection hq
          subst this
          exact List.mem_cons_self _ _
    · rw [List.find?_cons_of_neg _ (by simpa using hk)]
      by_cases hs : pairKey q ∈ seen
      · rw [if_pos hs, ih]
      · rw [if_neg hs]
        constructor
        · intro hmem
          rcases List.mem_cons.mp hmem with rfl | hmem2
          · exact absurd rfl hk
          · have h3 := (ih _).mp hmem2
            exact ⟨fun hin => h3.1 (List.mem_cons_of_mem _ hin), h3.2⟩
        · rintro ⟨hns, hfind⟩
          refine List.mem_cons_of_mem _ ((ih _).mpr ⟨?_, hfind⟩)
          intro hin
          rcases List.mem_cons.mp hin with heq | hin2
          · exact hk heq.symm
          · exact hns hin2

/-- `classify_design_dimension` preserves classifier state. -/
lemma classify_design_dimension_state_eq (s : ClassifierState) (rule : IntentRule) :
    (classify_design_dimension s rule).2 = s := by
  simp [classify_design_dimension, classify_dimension_state_eq]

/-- The `_classify_rules` loop preserves classifier state. -/
lemma foldl_classify_rules_step_snd (cfg : GeneratorConfig) :
    ∀ (rules : List IntentRule) (acc : List (String × List IntentRule) × ClassifierState),
      (rules.foldl (classify_rules_step cfg) acc).2 = acc.2 := by
  intro rules
  induction rules with
  | nil => intro acc; rfl
  | cons r rest ih =>
    intro acc
    rw [List.foldl_cons, ih]
    simp [classify_rules_step, classify_design_dimension_state_eq]

/-- `_classify_rules` preserves classifier state. -/
lemma classify_rules_snd (cfg : GeneratorConfig) (s : ClassifierState)
    (rules : List IntentRule) : (classify_rules cfg s rules).2 = s :=
  foldl_classify_rules_step_snd cfg rules ([], s)

/-- `generate_all_pairs` preserves classifier state. -/
lemma generate_all_pairs_snd (cfg : GeneratorConfig) (s : ClassifierState)
    (rules : List IntentRule) (tc : Option TraceContext) (strats : Option (List String)) :
    (generate_all_pairs cfg s rules tc strats).2 = s := by
  simp [generate_all_pairs, classify_rules_snd]

/-- `generate_preferences` preserves classifier state. -/
lemma generate_preferences_snd (cfg : GeneratorConfig) (s : ClassifierState)
    (rules : List IntentRule) (tc : Option TraceContext) (strats : Option (List String)) :
    (generate_preferences cfg s rules tc strats).2 = s := by
  simp [generate_preferences, generate_all_pairs_snd]

/-- C3: no pair returned by `generate_preferences` (any rules, trace context and
strategy list) relates a rule to itself: `preferred.rule_id ≠ rejected.rule_id`. -/
theorem generated_pairs_never_self (cfg : GeneratorConfig) (s : ClassifierState)
    (rules : List IntentRule) (tc : Option TraceContext) (strats : Option (List String))
    (p : PreferencePair) (hp : p ∈ (generate_preferences cfg s rules tc strats).1) :
    p.preferred.rule_id ≠ p.rejected.rule_id := by
  have hm : p ∈ (generate_all_pairs cfg s rules tc strats).1 :=
    mem_of_mem_dedupGo (by simpa [generate_preferences, deduplicate_pairs] using hp)
  exact (mem_generate_all_pairs hm).2.1

/-- C4: the output of `generate_preferences` has pairwise-distinct ordered keys
`(preferred.rule_id, rejected.rule_id)`, and a pair is in the output exactly when
it is the first pair of the pre-deduplication generation stream (all groups and
strategies, in generation order) carrying its key. -/
theorem dedup_keeps_first_pair_per_key (cfg : GeneratorConfig) (s : ClassifierState)
    (rules : List IntentRule) (tc : Option TraceContext) (strats : Option (List String)) :
    (((generate_preferences cfg s rules tc strats).1.map pairKey).Nodup) ∧
    ∀ p : PreferencePair,
      p ∈ (generate_preferences cfg s rules tc strats).1 ↔
        (generate_all_pairs cfg s rules tc strats).1.find?
            (fun q => decide (pairKey q = pairKey p)) = some p := by
  constructor
  · simpa [generate_preferences, deduplicate_pairs] using
      (dedupGo_keys (generate_all_pairs cfg s rules tc strats).1 []).1
  · intro p
    have : (generate_preferences cfg s rules tc strats).1
        = dedupGo [] (generate_all_pairs cfg s rules tc strats).1 := rfl
    rw [this, mem_dedupGo_iff]
    simp

/-- C7: rerunning `generate_preferences` with the same rule pool, trace context,
strategy list and configuration, starting from the classifier state left by the
first run, returns exactly the first run's result — in particular the same
(preferred, rejected, source) triples. -/
theorem generate_preferences_idempotent (cfg : GeneratorConfig) (s : ClassifierState)
    (rules : List IntentRule) (tc : Option TraceContext) (strats : Option (List String)) :
    generate_preferences cfg ((generate_preferences cfg s rules tc strats).2) rules tc strats
        = generate_preferences cfg s rules tc strats ∧
    ((generate_preferences cfg ((generate_preferences cfg s rules tc strats).2)
          rules tc strats).1.map
        (fun p => (p.preferred.rule_id, p.rejected.rule_id, p.source)))
      = ((generate_preferences cfg s rules tc strats).1.map
        (fun p => (p.preferred.rule_id, p.rejected.rule_id, p.source))) := by
  rw [generate_preferences_snd]
  exact ⟨rfl, rfl⟩


/-! ### Concrete instances for the weight and self-pair claims -/

/-- Configuration for the self-pair witness: integral thresholds and weight. -/
def c3Cfg : GeneratorConfig :=
  { confidence_threshold_high := 1, confidence_threshold_low := 0, synthetic_weight := 1 }

/-- High-confidence witness rule. -/
def c3r1 : IntentRule :=
  { rule_id := "r1", description := "aa", scope := "structural", abstraction_level := "specific",
    triggering_actions := [], confidence := 1, design_dimension := some "layout" }

/-- Low-confidence witness rule. -/
def c3r2 : IntentRule := { c3r1 with rule_id := "r2", confidence := 0 }

/-- The single pair the witness configuration produces. -/
def c3Pair : PreferencePair :=
  { preferred := c3r1, rejected := c3r2, source := "confidence", synthetic := true, weight := 1,
    trace_context := none, dimension_group := some "layout", platform_group := some "unknown",
    artifact_group := some "general" }

/-- Witness for C3: a concrete run emitting a pair, whose rule ids differ. -/
theorem generated_pairs_never_self_witness :
    c3Pair.preferred.rule_id ≠ c3Pair.rejected.rule_id :=
  generated_pairs_never_self c3Cfg {} [c3r1, c3r2] none (some ["confidence"]) c3Pair (by decide)

/-- C5 (amended): every emitted pair is synthetic with weight exactly
`synthetic_weight` (times 1.2 for the constitutional source); the weights lie in
[0,1] only under the side condition `0 ≤ synthetic_weight` and
`synthetic_weight × 1.2 ≤ 1` (satisfied by the default 0.3, but not by every
configurable weight). -/
theorem synthetic_pair_weight_policy (cfg : GeneratorConfig) (s : ClassifierState)
    (rules : List IntentRule) (tc : Option TraceContext) (strats : Option (List String))
    (p : PreferencePair) (hp : p ∈ (generate_preferences cfg s rules tc strats).1) :
    p.synthetic = true ∧
      (p.source = "constitutional" → p.weight = cfg.synthetic_weight * (12/10)) ∧
      (p.source ≠ "constitutional" → p.weight = cfg.synthetic_weight) ∧
      (0 ≤ cfg.synthetic_weight → cfg.synthetic_weight * (12/10) ≤ 1 →
        0 ≤ p.weight ∧ p.weight ≤ 1) := by
  have hm : p ∈ (generate_all_pairs cfg s rules tc strats).1 :=
    mem_of_mem_dedupGo (by simpa [generate_preferences, deduplicate_pairs] using hp)
  obtain ⟨hsyn, -, hcase⟩ := mem_generate_all_pairs hm
  rcases hcase with ⟨hsrc, hw⟩ | ⟨hsrc, hw⟩
  · refine ⟨hsyn, fun _ => hw, fun hne => absurd hsrc hne, fun h0 h1 => ?_⟩
    rw [hw]
    exact ⟨mul_nonneg h0 (by norm_num), h1⟩
  · refine ⟨hsyn, fun heq => absurd heq hsrc, fun _ => hw, fun h0 h1 => ?_⟩
    rw [hw]
    exact ⟨h0, by linarith⟩

/-- Witness rules and pair for the weight-policy theorem. -/
def c5wr1 : IntentRule :=
  { rule_id := "p1", description := "bb", scope := "structural", abstraction_level := "specific",
    triggering_actions := [], confidence := 1, design_dimension := some "layout" }

/-- Low-confidence counterpart of `c5wr1`. -/
def c5wr2 : IntentRule := { c5wr1 with rule_id := "p2", confidence := 0 }

/-- The pair produced from `c5wr1` and `c5wr2` under `c3Cfg`-like settings. -/
def c5wPair : PreferencePair :=
  { preferred := c5wr1, rejected := c5wr2, source := "confidence", synthetic := true, weight := 1,
    trace_context := none, dimension_group := some "layout", platform_group := some "unknown",
    artifact_group := some "general" }

/-- Witness for the weight policy: a concrete emitted pair is synthetic. -/
theorem synthetic_pair_weight_policy_witness : c5wPair.synthetic = true :=
  (synthetic_pair_weight_policy
    { confidence_threshold_high := 1, confidence_threshold_low := 0, synthetic_weight := 1 }
    {} [c5wr1, c5wr2] none (some ["confidence"]) c5wPair (by decide)).1

/-- Configuration refuting the unconditional [0,1] weight bound: a configurable
`synthetic_weight` of 0.9 pushes constitutional pairs to weight 1.08. -/
def c5Cfg : GeneratorConfig := { synthetic_weight := 9/10 }

/-- Constitutionally strong rule (score 0.7): grounded platform context with an
endpoint, two constitutional signals, iteration detected. -/
def c5strong : IntentRule :=
  { rule_id := "s", description := "", scope := "structural", abstraction_level := "specific",
    triggering_actions := [], confidence := 1/2,
    platform_context := some { platform := some "figma", extraction_method := some "plugin",
                               api_endpoints := some ["x"] },
    training_metadata := some { constitutional_signals := some ["a", "b"],
                                iteration_detected := some true },
    design_dimension := some "layout" }

/-- Constitutionally weak rule (score 0.15) in the same group. -/
def c5weak : IntentRule :=
  { rule_id := "w", description := "", scope := "structural", abstraction_level := "specific",
    triggering_actions := [], confidence := 1/2,
    platform_context := some { platform := some "figma", extraction_method := some "plugin" },
    design_dimension := some "layout" }

/-- The constitutional pair generated from `c5strong` over `c5weak`, carrying
weight 0.9 × 1.2 = 1.08. -/
def c5Pair : PreferencePair :=
  { preferred := c5strong, rejected := c5weak, source := "constitutional", synthetic := true,
    weight := 9/10 * (12/10), trace_context := none, dimension_group := some "layout",
    platform_group := some "figma", artifact_group := some "general" }

/-- Counterexample for C5 as stated: with `synthetic_weight = 0.9`,
`generate_preferences` emits exactly one pair and its weight exceeds 1. -/
theorem constitutional_weight_can_exceed_one :
    (generate_preferences c5Cfg {} [c5strong, c5weak] none (some ["constitutional"])).1
      = [c5Pair] ∧ 1 < c5Pair.weight := by
  have hs : compute_constitutional_score c5strong = 7/10 := by
    norm_num [compute_constitutional_score, c5strong, iteration_keywords, semantic_keywords,
      strContains, hasSub, headMatches, pyLower, pcNonempty, optStrTruthy, optListTruthy,
      tmNonempty, min_def, show ("figma".isEmpty) = false by decide,
      show ("plugin".isEmpty) = false by decide]
  have hw : compute_constitutional_score c5weak = 15/100 := by
    norm_num [compute_constitutional_score, c5weak, iteration_keywords, semantic_keywords,
      strContains, hasSub, headMatches, pyLower, pcNonempty, optStrTruthy, optListTruthy,
      tmNonempty, min_def, show ("figma".isEmpty) = false by decide,
      show ("plugin".isEmpty) = false by decide]
  have hgroups : classify_rules c5Cfg {} [c5strong, c5weak]
      = ([("layout:figma:general", [c5strong, c5weak])], ({} : ClassifierState)) := rfl
  constructor
  · norm_num [generate_preferences, generate_all_pairs, hgroups, default_strategies,
      generate_constitutional_pairs, make_pairs, hs, hw,
      show (c5strong.rule_id == c5weak.rule_id) = false by decide,
      show c5Cfg.synthetic_weight = 9/10 from rfl,
      show parse_group_key (some "layout:figma:general")
        = (some "layout", some "figma", some "general") by decide,
      deduplicate_pairs, dedupGo, pairKey, c5Pair]
  · norm_num [c5Pair]


/-! ### Quality-score formula (claim formalisations) -/

/-- Rule has a truthy platform and extraction_method in its platform context. -/
def rule_pc_grounded (rule : IntentRule) : Bool :=
  match rule.platform_context with
  | some pc => optStrTruthy pc.platform && optStrTruthy pc.extraction_method
  | none => false

/-- Rule has a truthy `api_endpoints` entry in its platform context. -/
def rule_pc_has_endpoints (rule : IntentRule) : Bool :=
  match rule.platform_context with
  | some pc => optListTruthy pc.api_endpoints
  | none => false

/-- Rule has a truthy `api_endpoints` or `data_source` entry in its platform
context (the condition the spec describes for the 0.1 bonus). -/
def rule_pc_has_endpoint_or_source (rule : IntentRule) : Bool :=
  match rule.platform_context with
  | some pc => optListTruthy pc.api_endpoints || optStrTruthy pc.data_source
  | none => false

/-- Rule's training metadata flags `suitable_for_training`. -/
def rule_tm_suitable (rule : IntentRule) : Bool :=
  match rule.training_metadata with
  | some tm => tm.suitable_for_training.getD false
  | none => false

/-- Rule's `novelty_score` as the quality check reads it (default 0). -/
def rule_tm_novelty (rule : IntentRule) : ℚ :=
  match rule.training_metadata with
  | some tm => tm.novelty_score.getD 0
  | none => 0

/-- The quality-score formula as the specification states it (modelled from the
spec's words): 0.1 is awarded when an endpoint OR data-source field is present. -/
def quality_score_per_spec (cfg : GeneratorConfig) (rule : IntentRule) : ℚ :=
  (if !rule.rule_id.isEmpty && !rule.description.isEmpty && !rule.scope.isEmpty
    then (2:ℚ)/10 else 0)
  + (if rule.description.length ≤ 150 && (pySplit rule.description).length ≤ 20
      then (2:ℚ)/10 else 0)
  + (if optPCTruthy rule.platform_context && rule_pc_grounded rule then (2:ℚ)/10 else 0)
  + (if optPCTruthy rule.platform_context && rule_pc_has_endpoint_or_source rule
      then (1:ℚ)/10 else 0)
  + (if optTMTruthy rule.training_metadata && rule_tm_suitable rule then (2:ℚ)/10 else 0)
  + (if optTMTruthy rule.training_metadata &&
        decide (cfg.min_novelty_score ≤ rule_tm_novelty rule) then (1:ℚ)/10 else 0)

/-- The quality-score formula the code implements (amended claim): identical to
the spec's formula except the 0.1 bonus requires `api_endpoints` specifically —
a `data_source` entry alone earns nothing. -/
def quality_score_amended (cfg : GeneratorConfig) (rule : IntentRule) : ℚ :=
  (if !rule.rule_id.isEmpty && !rule.description.isEmpty && !rule.scope.isEmpty
    then (2:ℚ)/10 else 0)
  + (if rule.description.length ≤ 150 && (pySplit rule.description).length ≤ 20
      then (2:ℚ)/10 else 0)
  + (if optPCTruthy rule.platform_context && rule_pc_grounded rule then (2:ℚ)/10 else 0)
  + (if optPCTruthy rule.platform_context && rule_pc_has_endpoints rule then (1:ℚ)/10 else 0)
  + (if optTMTruthy rule.training_metadata && rule_tm_suitable rule then (2:ℚ)/10 else 0)
  + (if optTMTruthy rule.training_metadata &&
        decide (cfg.min_novelty_score ≤ rule_tm_novelty rule) then (1:ℚ)/10 else 0)

/-- Rule whose platform context has a data source but no endpoints: the spec's
formula awards the 0.1 bonus, the code does not. -/
def c6Rule : IntentRule :=
  { rule_id := "q", description := "", scope := "structural", abstraction_level := "specific",
    triggering_actions := [], confidence := 1/2,
    platform_context := some { platform := some "figma", extraction_method := some "plugin",
                               data_source := some "db" } }

/-- Counterexample for C6 as stated: on `c6Rule` the code computes 0.4 while the
claimed formula gives 0.5 — the data-source part of the bonus is not implemented. -/
theorem quality_score_ignores_data_source :
    compute_quality_score {} c6Rule = 4/10 ∧ quality_score_per_spec {} c6Rule = 5/10 ∧
      compute_quality_score {} c6Rule ≠ quality_score_per_spec {} c6Rule := by
  have h1 : compute_quality_score {} c6Rule = 4/10 := by
    norm_num [compute_quality_score, c6Rule, pcNonempty, optStrTruthy, optListTruthy,
      show ("q".isEmpty) = false by decide, show ("".isEmpty) = true by decide,
      show (String.length "" ≤ 150) = True by decide,
      show ((pySplit "").length ≤ 20) = True by decide,
      show ("figma".isEmpty) = false by decide, show ("plugin".isEmpty) = false by decide]
  have h2 : quality_score_per_spec {} c6Rule = 5/10 := by
    norm_num [quality_score_per_spec, c6Rule, pcNonempty, optStrTruthy, optListTruthy,
      optPCTruthy, optTMTruthy, rule_pc_grounded, rule_pc_has_endpoint_or_source,
      rule_tm_suitable, rule_tm_novelty,
      show ("q".isEmpty) = false by decide, show ("".isEmpty) = true by decide,
      show (String.length "" ≤ 150) = True by decide,
      show ((pySplit "").length ≤ 20) = True by decide,
      show ("figma".isEmpty) = false by decide, show ("plugin".isEmpty) = false by decide,
      show ("db".isEmpty) = false by decide]
  refine ⟨h1, h2, ?_⟩
  rw [h1, h2]
  norm_num

/-- C6 (amended): for every configuration and rule, the quality score the code
computes equals the claimed additive formula with the endpoint bonus restricted
to `api_endpoints` (no credit for `data_source` alone). -/
theorem quality_score_matches_code_formula (cfg : GeneratorConfig) (rule : IntentRule) :
    compute_quality_score cfg rule = quality_score_amended cfg rule := by
  obtain ⟨id, desc, sc, lvl, trig, props, conf, pc, tm, dd⟩ := rule
  rcases pc with - | pc
  · rcases tm with - | tm
    · simp [compute_quality_score, quality_score_amended, rule_pc_grounded,
        rule_pc_has_endpoints, rule_tm_suitable, rule_tm_novelty, optPCTruthy, optTMTruthy]
    · by_cases htm : tmNonempty tm <;>
        simp [compute_quality_score, quality_score_amended, rule_pc_grounded,
          rule_pc_has_endpoints, rule_tm_suitable, rule_tm_novelty, optPCTruthy, optTMTruthy,
          htm]
      all_goals ring
  · rcases tm with - | tm
    · by_cases hpc : pcNonempty pc <;>
        simp [compute_quality_score, quality_score_amended, rule_pc_grounded,
          rule_pc_has_endpoints, rule_tm_suitable, rule_tm_novelty, optPCTruthy, optTMTruthy,
          hpc]
      all_goals ring
    · by_cases hpc : pcNonempty pc <;> by_cases htm : tmNonempty tm <;>
        simp [compute_quality_score, quality_score_amended, rule_pc_grounded,
          rule_pc_has_endpoints, rule_tm_suitable, rule_tm_novelty, optPCTruthy, optTMTruthy,
          hpc, htm] <;> ring


/-! ### `SchemaValidator.validate_rule` (`src/rl/utils/validators/schema_validator.py`) -/

/-- A rule record entering validation: an open dict, each recognised key
optionally present; `platform_context` is kept as the list of its keys, which is
all `validate_rule` inspects of it. -/
structure RuleRecord where
  rule_id : Option String := none
  description : Option String := none
  scope : Option String := none
  abstraction_level : Option String := none
  triggering_actions : Option (List String) := none
  confidence : Option ℚ := none
  platform_context : Option (List String) := none
deriving DecidableEq

/-- Key lookup on a `RuleRecord` (`field in rule`). -/
def RuleRecord.hasField (r : RuleRecord) : String → Bool
  | "rule_id" => r.rule_id.isSome
  | "description" => r.description.isSome
  | "scope" => r.scope.isSome
  | "abstraction_level" => r.abstraction_level.isSome
  | "triggering_actions" => r.triggering_actions.isSome
  | "confidence" => r.confidence.isSome
  | "platform_context" => r.platform_context.isSome
  | _ => false

/-- The `required_fields` list of `validate_rule` (note: it includes
`platform_context`). -/
def required_fields : List String :=
  ["rule_id", "description", "scope", "abstraction_level",
   "triggering_actions", "confidence", "platform_context"]

/-- The scope enumeration accepted by `validate_rule`. -/
def valid_scopes : List String :=
  ["artifact_property", "structural", "relational", "compositional"]

/-- The abstraction-level enumeration accepted by `validate_rule`. -/
def valid_levels : List String := ["specific", "intermediate", "general"]

/-- `SchemaValidator.validate_rule`: the `(is_valid, errors)` pair. -/
def validate_rule (rule : RuleRecord) : Bool × List String :=
  let errors1 := (required_fields.filter (fun f => !(rule.hasField f))).map
    (fun f => "Missing required field: " ++ f)
  let errors2 := errors1 ++
    (match rule.confidence with
     | some conf =>
       if decide (conf < 0) || decide (1 < conf) then
         ["Invalid confidence: " ++ ratStr conf ++ " (must be 0.0-1.0)"]
       else []
     | none => [])
  let errors3 := errors2 ++
    (match rule.description with
     | some desc =>
       let words := (pySplit desc).length
       if 20 < words then
         ["Description too long: " ++ toString words ++ " words (max 20)"]
       else []
     | none => [])
  let errors4 := errors3 ++
    (match rule.scope with
     | some sc =>
       if !(valid_scopes.contains sc) then
         ["Invalid scope: " ++ sc ++ " (must be one of " ++ toString valid_scopes ++ ")"]
       else []
     | none => [])
  let errors5 := errors4 ++
    (match rule.abstraction_level with
     | some lvl =>
       if !(valid_levels.contains lvl) then ["Invalid abstraction_level: " ++ lvl]
       else []
     | none => [])
  let errors6 := errors5 ++
    (match rule.platform_context with
     | some keys =>
       (if !(keys.contains "platform") then
          ["platform_context missing \u0027platform\u0027"] else []) ++
         (if !(keys.contains "extraction_method") then
            ["platform_context missing \u0027extraction_method\u0027"] else [])
     | none => [])
  (errors6.isEmpty, errors6)

/-- A record carrying the six claim-listed fields and no `platform_context`:
well-formed confidence, short description, enumerated scope and level. -/
def c9NoPc : RuleRecord :=
  { rule_id := some "r", description := some "short description", scope := some "structural",
    abstraction_level := some "specific", triggering_actions := some ["move"],
    confidence := some 1 }

/-- Counterexample for C9 as stated: the record with the six fields and no
`platform_context` is rejected — `platform_context` is itself a required field. -/
theorem rule_without_platform_context_rejected :
    (validate_rule c9NoPc).1 = false ∧
      (validate_rule c9NoPc).2 = ["Missing required field: platform_context"] := by
  decide

/-- C9 (amended): `validate_rule` requires `platform_context` like the other six
fields — a record lacking it is reported invalid with a missing-field error.  A
record with all seven fields, confidence in [0,1], description of at most 20
words, enumerated scope and abstraction level, and a platform_context carrying
both `platform` and `extraction_method` keys is accepted with no errors; the
key requirements on `platform_context` are checked only when it is present. -/
theorem validate_rule_platform_context_required :
    (∀ r : RuleRecord, r.platform_context = none →
        (validate_rule r).1 = false ∧
          "Missing required field: platform_context" ∈ (validate_rule r).2) ∧
    (∀ (id desc sc lvl : String) (trig : List String) (conf : ℚ) (pck : List String),
        0 ≤ conf → conf ≤ 1 → (pySplit desc).length ≤ 20 →
        valid_scopes.contains sc = true → valid_levels.contains lvl = true →
        pck.contains "platform" = true → pck.contains "extraction_method" = true →
        validate_rule
            { rule_id := some id, description := some desc, scope := some sc,
              abstraction_level := some lvl, triggering_actions := some trig,
              confidence := some conf, platform_context := some pck }
          = (true, [])) := by
  constructor
  · intro r h
    have hmem : "Missing required field: platform_context" ∈ (validate_rule r).2 := by
      simp only [validate_rule, List.mem_append]
      refine Or.inl (Or.inl (Or.inl (Or.inl (Or.inl ?_))))
      refine List.mem_map.mpr ⟨"platform_context", List.mem_filter.mpr ⟨?_, ?_⟩, rfl⟩
      · simp [required_fields]
      · simp [RuleRecord.hasField, h]
    refine ⟨?_, hmem⟩
    have h2 : (validate_rule r).2 ≠ [] := List.ne_nil_of_mem hmem
    have h1 : (validate_rule r).1 = (validate_rule r).2.isEmpty := rfl
    rw [h1]
    exact List.isEmpty_eq_false.mpr h2
  · intro id desc sc lvl trig conf pck h0 h1 hwords hsc hlvl hpk hek
    have hc1 : decide (conf < 0) = false := decide_eq_false (not_lt.mpr h0)
    have hc2 : decide (1 < conf) = false := decide_eq_false (not_lt.mpr h1)
    simp [validate_rule, RuleRecord.hasField, required_fields, hc1, hc2,
      not_lt.mpr hwords, hsc, hlvl, hpk, hek]
    exact ⟨by simpa using hsc, by simpa using hlvl, by simpa using hpk, by simpa using hek⟩

end Udom
